import Mathlib

/-!
Verification of the paragraph-processing pipeline of the AI Proofreader
(`src/review_modular.py`, configuration in `src/config.py`).

Strings are modelled as lists of characters (`Str`), so that Python's
`str.strip` (`pyStrip`), slicing and prefix tests are ordinary list
operations with provable algebraic properties.  The external world —
the OpenAI client call together with `json.loads` on its reply — is
modelled per attempt by a `CallOutcome`; a run of one unit is driven by
a stream `Nat → CallOutcome` giving the outcome of each attempt.  The
tokenizer (`tiktoken`) is an uninterpreted token-count function
`Str → Nat`.  Document I/O (python-docx) is a black box: the loader is
modelled on the list of raw paragraph texts of the document, and the
output writer by the data handed to it (`OutputReport`).
-/

namespace AIProofreader

/-- Python strings, modelled as lists of characters. -/
abbrev Str := List Char

/-- Python's `str.strip()`: remove whitespace from both ends. -/
def pyStrip (s : Str) : Str :=
  ((s.dropWhile Char.isWhitespace).reverse.dropWhile Char.isWhitespace).reverse

/-- Configuration `SYSTEM_PROMPT` from `src/config.py`. -/
def SYSTEM_PROMPT : Str :=
  ("You are an expert copy-editor. You meticulously review text for grammatical errors, spelling mistakes, punctuation issues, clarity, conciseness, and overall readability. Return JSON only.").toList

/-- The part of `USER_PROMPT_TEMPLATE` before the single substitution slot
(the slot sits at the very end of the template in `src/config.py`). -/
def userPromptBeforeSlot : Str :=
  ("Please proofread the following text.\nReturn a JSON object with the following three keys:\n\n\"original\": The verbatim input text you received.\n\n\"corrected\": The corrected version of the text. If no corrections are needed, this should be identical to the original.\n\n\"feedback\": A bulleted list (strings) of major issues fixed or suggestions for improvement. If no issues, provide an empty list or a single item like \"No major issues found.\"\n\nOriginal Text:\n\n").toList

/-- `USER_PROMPT_TEMPLATE.format(paragraph_text=t)`. -/
def userPromptFormat (t : Str) : Str := userPromptBeforeSlot ++ t

/-- `USER_PROMPT_TEMPLATE.replace("\x7bparagraph_text\x7d", "")`: the slot is
at the end of the template, so the rendered-empty template is the text
before the slot. -/
def userPromptEmptySlot : Str := userPromptBeforeSlot

/-- Configuration `MAX_RETRY_TIME_SECONDS` (default 60) from `src/config.py`. -/
def MAX_RETRY_TIME_SECONDS : Nat := 60

/-- Configuration `MAX_TOKENS_PER_API_REQUEST` (default 4000). -/
def MAX_TOKENS_PER_API_REQUEST : Nat := 4000

/-- JSON values, as produced by `json.loads`. -/
inductive Json where
  | null
  | bool (b : Bool)
  | num (n : Int)
  | str (s : Str)
  | arr (elems : List Json)
  | obj (fields : List (Str × Json))

/-- The pydantic model `Edit` of `src/review_modular.py`. -/
structure Edit where
  original : Str
  corrected : Str
  feedback : List Str
deriving DecidableEq

/-- Python exceptions relevant to the pipeline, each carrying its `str(e)`
message.  The first three are the transient OpenAI exception classes listed
in the `backoff.on_exception` decorator. -/
inductive PyExc where
  | rateLimitError (msg : Str)
  | apiConnectionError (msg : Str)
  | apiTimeoutError (msg : Str)
  | jsonDecodeError (msg : Str)
  | otherError (msg : Str)
deriving DecidableEq

/-- The exception classes the `backoff` decorator is configured to retry:
`openai.RateLimitError`, `openai.APIConnectionError`, `openai.APITimeoutError`. -/
def isTransient : PyExc → Bool
  | .rateLimitError _ => true
  | .apiConnectionError _ => true
  | .apiTimeoutError _ => true
  | _ => false

/-- Python's `str(e)` for a modelled exception. -/
def excMessage : PyExc → Str
  | .rateLimitError m => m
  | .apiConnectionError m => m
  | .apiTimeoutError m => m
  | .jsonDecodeError m => m
  | .otherError m => m

/-- Outcome of one invocation of `client.chat.completions.create` followed by
`json.loads` on the reply content: either the client call raises an
exception, or it returns content on which `json.loads` either fails
(`JSONDecodeError` message) or yields a parsed JSON value. -/
inductive CallOutcome where
  | raises (e : PyExc)
  | content (parse : Except Str Json)

/-- Result of running a Python callable: a value, or a raised exception. -/
inductive PyResult (α : Type) where
  | ok (a : α)
  | raised (e : PyExc)
deriving Nonempty

/-- The degraded reply dict built inside `get_proofread_data`'s handlers:
`\x7b"original": text, "corrected": text, "feedback": [msg]\x7d`. -/
def degradedReplyJson (text msg : Str) : Json :=
  Json.obj
    [ (("original").toList, Json.str text)
    , (("corrected").toList, Json.str text)
    , (("feedback").toList, Json.arr [Json.str msg]) ]

/-- Feedback diagnostic for a JSON decode failure (line 92 of the source). -/
def jsonErrorMsg (m : Str) : Str := ("JSON Error: ").toList ++ m

/-- Feedback diagnostic for any other exception (line 95 of the source). -/
def apiErrorMsg (e : PyExc) : Str := ("API Error: ").toList ++ excMessage e

/-- One attempt of the body of `get_proofread_data` (lines 75–95): the
`try` block calls the client and parses the reply; `except
json.JSONDecodeError` returns a degraded reply labelled `JSON Error`;
the blanket `except Exception` returns a degraded reply labelled
`API Error` — note that it also catches the transient OpenAI exceptions,
so no exception ever escapes the body. -/
def get_proofread_attempt (text : Str) (o : CallOutcome) : PyResult Json :=
  match o with
  | .content (.ok j) => PyResult.ok j
  | .content (.error m) => PyResult.ok (degradedReplyJson text (jsonErrorMsg m))
  | .raises e =>
    match e with
    | .jsonDecodeError m => PyResult.ok (degradedReplyJson text (jsonErrorMsg m))
    | _ => PyResult.ok (degradedReplyJson text (apiErrorMsg e))

/-- The retry loop of `backoff.on_exception(backoff.expo, ..., max_time=T)`:
attempt `n` runs `f n`; a value returns immediately; a raised exception is
retried after a delay of `2 ^ n` seconds while it is retryable and the
wall-clock budget is not exhausted, otherwise it is re-raised.  The result
also counts the attempts made.  `fuel` bounds the recursion; since every
retry adds at least one second of delay, `T + 1` fuel is enough. -/
def backoffGo (retryable : PyExc → Bool) (maxTime : Nat) (f : Nat → PyResult Json) :
    Nat → Nat → Nat → PyResult Json × Nat
  | 0, n, _ => (f n, n + 1)
  | fuel + 1, n, elapsed =>
    match f n with
    | .ok a => (.ok a, n + 1)
    | .raised e =>
      if retryable e && decide (elapsed + 2 ^ n ≤ maxTime) then
        backoffGo retryable maxTime f fuel (n + 1) (elapsed + 2 ^ n)
      else (.raised e, n + 1)

/-- The `backoff.on_exception` decorator applied to a callable, returning
the result together with the number of attempts made. -/
def backoffOnException (retryable : PyExc → Bool) (maxTime : Nat)
    (f : Nat → PyResult Json) : PyResult Json × Nat :=
  backoffGo retryable maxTime f (maxTime + 1) 0 0

/-- `get_proofread_data` as decorated (lines 70–95), traced with the number
of attempts the backoff wrapper makes; `outcomes n` is the environment's
behaviour on attempt `n`. -/
def get_proofread_data_traced (text : Str) (outcomes : Nat → CallOutcome) :
    PyResult Json × Nat :=
  backoffOnException isTransient MAX_RETRY_TIME_SECONDS
    (fun n => get_proofread_attempt text (outcomes n))

/-- The value of `get_proofread_data(text)` under environment `outcomes`. -/
def get_proofread_data (text : Str) (outcomes : Nat → CallOutcome) : PyResult Json :=
  (get_proofread_data_traced text outcomes).1

/-- Python dict key lookup on a parsed JSON object. -/
def jsonLookup : List (Str × Json) → Str → Option Json
  | [], _ => none
  | (k, v) :: rest, key => if k = key then some v else jsonLookup rest key

/-- Collect the elements of a JSON array when all of them are strings. -/
def allStrings : List Json → Option (List Str)
  | [] => some []
  | Json.str s :: rest => (allStrings rest).map (fun ss => s :: ss)
  | _ => none

/-- Validate one required string field of the `Edit` model; the error text
stands in for pydantic's rendered message and names the offending field. -/
def validateStrField (fields : List (Str × Json)) (key : Str) : Except Str Str :=
  match jsonLookup fields key with
  | none => Except.error (key ++ (": Field required").toList)
  | some (Json.str s) => Except.ok s
  | some _ => Except.error (key ++ (": Input should be a valid string").toList)

/-- Validate the required `feedback` field: a list of strings. -/
def validateStrListField (fields : List (Str × Json)) (key : Str) :
    Except Str (List Str) :=
  match jsonLookup fields key with
  | none => Except.error (key ++ (": Field required").toList)
  | some (Json.arr xs) =>
    match allStrings xs with
    | some ss => Except.ok ss
    | none => Except.error (key ++ (": Input should be a valid list of strings").toList)
  | some _ => Except.error (key ++ (": Input should be a valid list of strings").toList)

/-- `Edit.model_validate(raw)`: the reply must be a JSON object carrying a
string `original`, a string `corrected` and a string-list `feedback`
(extra keys are ignored, pydantic's default); otherwise a validation
error naming the missing or mistyped field is raised. -/
def model_validate_edit (j : Json) : Except Str Edit :=
  match j with
  | Json.obj fields =>
    match validateStrField fields ("original").toList with
    | Except.error m => Except.error m
    | Except.ok o =>
      match validateStrField fields ("corrected").toList with
      | Except.error m => Except.error m
      | Except.ok c =>
        match validateStrListField fields ("feedback").toList with
        | Except.error m => Except.error m
        | Except.ok f => Except.ok { original := o, corrected := c, feedback := f }
  | _ => Except.error ("Input should be a valid dictionary").toList

/-- Feedback diagnostic stored on a pydantic validation failure (line 114). -/
def validationErrorMsg (m : Str) : Str := ("Validation Error: ").toList ++ m

/-- Feedback diagnostic stored by the orchestrator's blanket handler
(line 121). -/
def processingErrorMsg (e : PyExc) : Str := ("Processing Error: ").toList ++ excMessage e

/-- The loop body of `process_segments` for one unit (lines 102–122):
call `get_proofread_data`, validate the reply, and on a `ValidationError`
or any other raised exception store a degraded `Edit` built from the
locally-held paragraph text. -/
def process_one (text : Str) (outcomes : Nat → CallOutcome) : Edit :=
  match get_proofread_data text outcomes with
  | PyResult.ok j =>
    match model_validate_edit j with
    | Except.ok e => e
    | Except.error m =>
      { original := text, corrected := text, feedback := [validationErrorMsg m] }
  | PyResult.raised e =>
    { original := text, corrected := text, feedback := [processingErrorMsg e] }

/-- A segment dict built by `prepare_segments_for_api`:
`\x7b"id": i, "text": t, "is_long": b\x7d`. -/
structure Segment where
  id : Nat
  text : Str
  is_long : Bool
deriving DecidableEq

/-- `process_segments` (lines 98–124): iterate over the units in order,
appending exactly one `Edit` per unit to the results list.  Each unit's
remote interaction is driven by its own outcome stream. -/
def process_segments_go : List (Segment × (Nat → CallOutcome)) → List Edit → List Edit
  | [], results => results
  | (seg, oc) :: rest, results =>
    process_segments_go rest (results ++ [process_one seg.text oc])

/-- `process_segments` run on units paired with their environments. -/
def process_segments (units : List (Segment × (Nat → CallOutcome))) : List Edit :=
  process_segments_go units []

/-- The fixed prompt overhead of `prepare_segments_for_api` (lines 54–55):
tokens of the template rendered with an empty slot, plus tokens of the
system prompt, plus a fixed buffer of 200.  `enc` is the model-specific
token-count function (tiktoken), uninterpreted here. -/
def prompt_overhead (enc : Str → Nat) : Nat :=
  enc userPromptEmptySlot + enc SYSTEM_PROMPT + 200

/-- The `enumerate` loop of `prepare_segments_for_api` (lines 57–64),
carrying the running index. -/
def prepareGo (enc : Str → Nat) (maxTokens overhead : Nat) :
    Nat → List Str → List Segment
  | _, [] => []
  | i, t :: rest =>
    { id := i, text := t, is_long := decide (enc t + overhead > maxTokens) }
      :: prepareGo enc maxTokens overhead (i + 1) rest

/-- `prepare_segments_for_api` (lines 48–67): one segment per paragraph, in
order, flagged `is_long` exactly when its token count plus the prompt
overhead exceeds the per-request budget; no paragraph is dropped. -/
def prepare_segments_for_api (paragraphs : List Str) (enc : Str → Nat)
    (maxTokens : Nat) : List Segment :=
  prepareGo enc maxTokens (prompt_overhead enc) 0 paragraphs

/-- `load_paragraphs` (lines 36–45), modelled on the raw paragraph texts of
the document (python-docx is an external collaborator):
`[p.text.strip() for p in doc.paragraphs if p.text.strip()]`. -/
def load_paragraphs (rawTexts : List Str) : List Str :=
  rawTexts.filterMap (fun t =>
    let s := pyStrip t
    if s = [] then none else some s)

/-- Summary count `total_paragraphs` of `create_output_document` (line 133). -/
def total_paragraphs (results : List Edit) : Nat := results.length

/-- Summary count `corrected_paragraphs` of `create_output_document`
(line 134): `sum(1 for edit in results if edit.original != edit.corrected)`. -/
def corrected_paragraphs (results : List Edit) : Nat :=
  results.countP (fun e => decide (e.original ≠ e.corrected))

/-- The first list comprehension on feedback (line 159):
`[item.strip() for item in feedback if item.strip()]`. -/
def feedback_items (feedback : List Str) : List Str :=
  feedback.filterMap (fun item =>
    let s := pyStrip item
    if s = [] then none else some s)

/-- Bullet stripping (line 163): `item[2:].strip() if item.startswith("- ")
else item`. -/
def clean_item (item : Str) : Str :=
  match item with
  | '-' :: ' ' :: rest => pyStrip rest
  | _ => item

/-- The feedback texts handed to the renderer for one result (lines 158–165):
each surviving item is stripped, has a leading `"- "` bullet removed, and is
dropped if empty. -/
def handed_feedback (feedback : List Str) : List Str :=
  (feedback_items feedback).filterMap (fun item =>
    let c := clean_item item
    if c = [] then none else some c)

/-- The data `create_output_document` (lines 127–172) hands to the document
writer: the two summary counts and, per result, the cleaned feedback
lines (rendering styles are outside the model). -/
structure OutputReport where
  total : Nat
  corrected : Nat
  rendered_feedback : List (List Str)
deriving DecidableEq

/-- `create_output_document` as the data it passes to the writer. -/
def create_output_document (results : List Edit) : OutputReport :=
  { total := total_paragraphs results
  , corrected := corrected_paragraphs results
  , rendered_feedback := results.map (fun e => handed_feedback e.feedback) }

/-! ### Concrete scenario environments -/

/-- An environment whose reply echoes a paraphrased `original` field
(`"BAR"`) for the input paragraph `"foo"`, with a changed correction. -/
def echoTamperedOutcomes : Nat → CallOutcome := fun _ =>
  CallOutcome.content (Except.ok (Json.obj
    [ (("original").toList, Json.str (("BAR").toList))
    , (("corrected").toList, Json.str (("foo two").toList))
    , (("feedback").toList, Json.arr []) ]))

/-- A connection-failure exception as raised by the OpenAI client. -/
def connectionFailure : PyExc :=
  PyExc.apiConnectionError (("Connection error.").toList)

/-- A well-formed service reply correcting `"Teh cat."` to `"The cat."`. -/
def c2GoodReply : Json :=
  Json.obj
    [ (("original").toList, Json.str (("Teh cat.").toList))
    , (("corrected").toList, Json.str (("The cat.").toList))
    , (("feedback").toList, Json.arr [Json.str (("Fixed typo.").toList)]) ]

/-- An environment that raises a connection failure on the first three
attempts and then returns a good correction: per the spec this should end
in a `Succeeded` record. -/
def c2Outcomes : Nat → CallOutcome := fun n =>
  if n < 3 then CallOutcome.raises connectionFailure
  else CallOutcome.content (Except.ok c2GoodReply)

/-- An environment whose transient connection failures never stop. -/
def c4Outcomes : Nat → CallOutcome := fun _ =>
  CallOutcome.raises connectionFailure

/-- First input paragraph of the spec's summary scenario. -/
def c8Text0 : Str := ("The frist paragraph.").toList

/-- Second input paragraph of the spec's summary scenario. -/
def c8Text1 : Str := ("Alredy correct.").toList

/-- Service reply for unit 0 of the summary scenario. -/
def c8Reply0 : Json :=
  Json.obj
    [ (("original").toList, Json.str c8Text0)
    , (("corrected").toList, Json.str (("The first paragraph.").toList))
    , (("feedback").toList, Json.arr [Json.str (("Fixed spelling of first.").toList)]) ]

/-- Service reply for unit 1 of the summary scenario (no changes). -/
def c8Reply1 : Json :=
  Json.obj
    [ (("original").toList, Json.str c8Text1)
    , (("corrected").toList, Json.str c8Text1)
    , (("feedback").toList, Json.arr []) ]

/-- The summary scenario run end-to-end: segment the two paragraphs (with
token counts given by string length) and pair each unit with its
environment. -/
def c8Units : List (Segment × (Nat → CallOutcome)) :=
  (prepare_segments_for_api [c8Text0, c8Text1] List.length
      MAX_TOKENS_PER_API_REQUEST).zip
    [fun _ => CallOutcome.content (Except.ok c8Reply0),
     fun _ => CallOutcome.content (Except.ok c8Reply1)]

/-- The results of the summary scenario. -/
def c8Results : List Edit := process_segments c8Units

/-! ### Helper lemmas -/

/-- Dropping a prefix of `p`-satisfying elements is idempotent. -/
theorem dropWhile_idem {α : Type} (p : α → Bool) (l : List α) :
    (l.dropWhile p).dropWhile p = l.dropWhile p := by
  cases h : l.dropWhile p with
  | nil => rfl
  | cons x t =>
    have h2 := List.head?_dropWhile_not p l
    rw [h] at h2
    simp only [List.head?_cons] at h2
    simp [List.dropWhile_cons, h2]

/-- Stripping whitespace from both ends is idempotent. -/
theorem pyStrip_idem (l : Str) : pyStrip (pyStrip l) = pyStrip l := by
  unfold pyStrip
  set p := Char.isWhitespace with hp
  set a := l.dropWhile p with ha
  set d := a.reverse.dropWhile p with hd
  have hstep1 : d.reverse.dropWhile p = d.reverse := by
    cases hcase : d.reverse with
    | nil => simp
    | cons x t =>
      have haeq : a = x :: (t ++ (a.reverse.takeWhile p).reverse) := by
        have h2 : a.reverse.takeWhile p ++ d = a.reverse :=
          List.takeWhile_append_dropWhile p a.reverse
        calc a = a.reverse.reverse := (List.reverse_reverse a).symm
          _ = (a.reverse.takeWhile p ++ d).reverse := by rw [h2]
          _ = d.reverse ++ (a.reverse.takeWhile p).reverse := by
              rw [List.reverse_append]
          _ = x :: (t ++ (a.reverse.takeWhile p).reverse) := by rw [hcase]; rfl
      have hx : p x = false := by
        have h3 := List.head?_dropWhile_not p l
        rw [← ha, haeq] at h3
        simpa using h3
      exact List.dropWhile_cons_of_neg (by simp [hx])
  rw [hstep1, List.reverse_reverse, hd, dropWhile_idem]

/-- Every attempt of `get_proofread_data`'s body returns a value: the
blanket `except Exception` handler converts every raised exception —
the transient OpenAI exceptions included — into a returned dict. -/
theorem get_proofread_attempt_ok (text : Str) (o : CallOutcome) :
    ∃ j, get_proofread_attempt text o = PyResult.ok j := by
  cases o with
  | raises e => cases e <;> exact ⟨_, rfl⟩
  | content parse => cases parse <;> exact ⟨_, rfl⟩

/-- Because the body never raises, the backoff wrapper always returns the
first attempt's value after exactly one attempt. -/
theorem get_proofread_data_traced_eq (text : Str) (outcomes : Nat → CallOutcome) :
    get_proofread_data_traced text outcomes =
      (get_proofread_attempt text (outcomes 0), 1) := by
  obtain ⟨j, hj⟩ := get_proofread_attempt_ok text (outcomes 0)
  show backoffGo isTransient MAX_RETRY_TIME_SECONDS
      (fun n => get_proofread_attempt text (outcomes n)) (60 + 1) 0 0 = _
  rw [backoffGo]
  simp only [hj]

/-- `get_proofread_data` is the value of the single attempt made. -/
theorem get_proofread_data_eq_attempt (text : Str) (outcomes : Nat → CallOutcome) :
    get_proofread_data text outcomes = get_proofread_attempt text (outcomes 0) := by
  unfold get_proofread_data
  rw [get_proofread_data_traced_eq]

/-- Validating a degraded reply dict succeeds and yields the corresponding
degraded `Edit`. -/
theorem validate_degraded (text msg : Str) :
    model_validate_edit (degradedReplyJson text msg) =
      Except.ok { original := text, corrected := text, feedback := [msg] } := by
  rfl

/-- The append loop of `process_segments` maps `process_one` over the units. -/
theorem process_segments_go_eq (units : List (Segment × (Nat → CallOutcome))) :
    ∀ acc, process_segments_go units acc =
      acc ++ units.map (fun u => process_one u.1.text u.2) := by
  induction units with
  | nil => intro acc; simp [process_segments_go]
  | cons u rest ih =>
    intro acc
    cases u with
    | mk seg oc => simp [process_segments_go, ih]

/-- `process_segments` maps `process_one` over the units in order. -/
theorem process_segments_eq (units : List (Segment × (Nat → CallOutcome))) :
    process_segments units = units.map (fun u => process_one u.1.text u.2) := by
  unfold process_segments
  rw [process_segments_go_eq]
  rfl

/-- The segmenter loop keeps every paragraph. -/
theorem prepareGo_length (enc : Str → Nat) (maxT overhead : Nat) :
    ∀ (ps : List Str) (i : Nat),
      (prepareGo enc maxT overhead i ps).length = ps.length := by
  intro ps
  induction ps with
  | nil => intro i; rfl
  | cons t rest ih => intro i; simp [prepareGo, ih]

/-- Positional characterisation of the segmenter loop. -/
theorem prepareGo_getElem? (enc : Str → Nat) (maxT overhead : Nat) :
    ∀ (ps : List Str) (i k : Nat),
      (prepareGo enc maxT overhead i ps)[k]? =
        (ps[k]?).map (fun t =>
          ({ id := i + k, text := t,
             is_long := decide (enc t + overhead > maxT) } : Segment)) := by
  intro ps
  induction ps with
  | nil => intro i k; simp [prepareGo]
  | cons t rest ih =>
    intro i k
    cases k with
    | zero => simp [prepareGo]
    | succ k =>
      have h : i + (k + 1) = (i + 1) + k := by omega
      simp [prepareGo, ih, h]

/-- When the single attempt returns a value that validates, the stored
result is exactly the validated reply. -/
theorem process_one_validate_ok (text : Str) (outcomes : Nat → CallOutcome)
    (j : Json) (e : Edit)
    (hj : get_proofread_data text outcomes = PyResult.ok j)
    (he : model_validate_edit j = Except.ok e) :
    process_one text outcomes = e := by
  simp [process_one, hj, he]

/-- When the single attempt returns a value that fails validation, the
orchestrator stores a degraded record built from the local text. -/
theorem process_one_validate_error (text : Str) (outcomes : Nat → CallOutcome)
    (j : Json) (m : Str)
    (hj : get_proofread_data text outcomes = PyResult.ok j)
    (he : model_validate_edit j = Except.error m) :
    process_one text outcomes =
      { original := text, corrected := text, feedback := [validationErrorMsg m] } := by
  simp [process_one, hj, he]

/-- A first-attempt raised exception other than `JSONDecodeError` is
swallowed by the blanket handler: the stored record is the degraded
`API Error` record, built inside `get_proofread_data` itself. -/
theorem process_one_raises (text : Str) (outcomes : Nat → CallOutcome)
    (e : PyExc) (h0 : outcomes 0 = CallOutcome.raises e)
    (hne : ∀ m, e ≠ PyExc.jsonDecodeError m) :
    process_one text outcomes =
      { original := text, corrected := text, feedback := [apiErrorMsg e] } := by
  have hatt : get_proofread_attempt text (outcomes 0) =
      PyResult.ok (degradedReplyJson text (apiErrorMsg e)) := by
    rw [h0]
    cases e with
    | jsonDecodeError m => exact absurd rfl (hne m)
    | _ => rfl
  have hj : get_proofread_data text outcomes =
      PyResult.ok (degradedReplyJson text (apiErrorMsg e)) := by
    rw [get_proofread_data_eq_attempt, hatt]
  exact process_one_validate_ok text outcomes _ _ hj (validate_degraded text (apiErrorMsg e))

/-- `load_paragraphs` is the whitespace-trim of the raw paragraphs with the
empty ones filtered out. -/
theorem load_paragraphs_eq_filter (raw : List Str) :
    load_paragraphs raw = (raw.map pyStrip).filter (fun s => decide (s ≠ [])) := by
  unfold load_paragraphs
  induction raw with
  | nil => rfl
  | cons t rest ih =>
    rw [List.filterMap_cons, List.map_cons, List.filter_cons]
    by_cases h : pyStrip t = []
    · simp [h, ih]
    · simp [h, ih]

/-- Bullet stripping preserves strippedness. -/
theorem pyStrip_clean_item (s : Str) (h : pyStrip s = s) :
    pyStrip (clean_item s) = clean_item s := by
  unfold clean_item
  split
  · exact pyStrip_idem _
  · exact h

/-! ### Claims -/

/-- C1, counterexample: the pipeline does NOT overwrite the service's echoed
`original` before storage.  For input paragraph `"foo"`, a reply echoing
`original = "BAR"` validates, and the stored result's `original` is
`"BAR"`, not the locally-held verbatim input text `"foo"`. -/
theorem C1_counterexample :
    (process_one (("foo").toList) echoTamperedOutcomes).original = ("BAR").toList
    ∧ (process_one (("foo").toList) echoTamperedOutcomes).original ≠ ("foo").toList := by
  constructor
  · rfl
  · decide

/-- C1, amended: when the service reply validates, the Orchestrator stores
the validated reply verbatim — including the service's echoed `original`
field, with no post-validation override; the locally-held input text is
used only on the degraded paths. -/
theorem C1_amended_echo_stored (text : Str) (outcomes : Nat → CallOutcome)
    (j : Json) (e : Edit)
    (hj : get_proofread_data text outcomes = PyResult.ok j)
    (he : model_validate_edit j = Except.ok e) :
    process_one text outcomes = e :=
  process_one_validate_ok text outcomes j e hj he

/-- Witness for C1's amended theorem at the concrete tampered-echo input. -/
theorem C1_amended_echo_stored_witness :
    process_one (("foo").toList) echoTamperedOutcomes =
      { original := ("BAR").toList, corrected := ("foo two").toList,
        feedback := [] } :=
  C1_amended_echo_stored (("foo").toList) echoTamperedOutcomes _ _ rfl rfl

/-- C2, code bug: the blanket `except Exception` inside `get_proofread_data`
catches the transient OpenAI exceptions before the `backoff` decorator can
observe them, so the decorator never retries: every unit makes exactly one
attempt, and an environment that raises a connection failure three times
and then succeeds ends as a degraded `API Error` record instead of the
service's correction. -/
theorem C2_retry_is_dead_code :
    (∀ (text : Str) (outcomes : Nat → CallOutcome),
        (get_proofread_data_traced text outcomes).2 = 1)
    ∧ (∀ text : Str, process_one text c2Outcomes =
        { original := text, corrected := text,
          feedback := [("API Error: Connection error.").toList] }) := by
  constructor
  · intro text outcomes
    rw [get_proofread_data_traced_eq]
  · intro text
    have h := process_one_raises text c2Outcomes connectionFailure rfl
      (by intro m hcontra; exact PyExc.noConfusion hcontra)
    rw [h]
    constructor

/-- C4, code bug: when the transient failures never stop, the degraded
record is produced immediately at the client layer (one attempt, no
escalation of a typed error to the orchestrator), and its single feedback
entry is the generic `API Error` diagnostic, which does not mention retry
exhaustion. -/
theorem C4_no_retry_exhaustion_diagnostic :
    (∀ text : Str, process_one text c4Outcomes =
      { original := text, corrected := text,
        feedback := [("API Error: Connection error.").toList] })
    ∧ (∀ text : Str, (get_proofread_data_traced text c4Outcomes).2 = 1)
    ∧ (∀ text : Str, ∃ j, get_proofread_data text c4Outcomes = PyResult.ok j) := by
  refine ⟨fun text => ?_, fun text => ?_, fun text => ?_⟩
  · have h := process_one_raises text c4Outcomes connectionFailure rfl
      (by intro m hcontra; exact PyExc.noConfusion hcontra)
    rw [h]
    constructor
  · rw [get_proofread_data_traced_eq]
  · rw [get_proofread_data_eq_attempt]
    exact get_proofread_attempt_ok text (c4Outcomes 0)

/-- C6: a reply whose content fails to parse as JSON is not retried — the
client makes exactly one attempt and returns (instead of raising) the
degraded reply with `original` and `corrected` both the input text and a
single feedback entry naming the JSON failure. -/
theorem C6_bad_json_immediate_degraded (text m : Str)
    (outcomes : Nat → CallOutcome)
    (h0 : outcomes 0 = CallOutcome.content (Except.error m)) :
    get_proofread_data_traced text outcomes =
      (PyResult.ok (degradedReplyJson text (jsonErrorMsg m)), 1) := by
  rw [get_proofread_data_traced_eq, h0]
  rfl

/-- Witness for C6 at a concrete malformed-JSON environment. -/
theorem C6_bad_json_immediate_degraded_witness :
    get_proofread_data_traced (("Some text.").toList)
        (fun _ => CallOutcome.content (Except.error (("Expecting value").toList))) =
      (PyResult.ok (degradedReplyJson (("Some text.").toList)
        (jsonErrorMsg (("Expecting value").toList))), 1) :=
  C6_bad_json_immediate_degraded (("Some text.").toList)
    (("Expecting value").toList) _ rfl

/-- C7: a reply that fails schema validation does not crash the pipeline —
the unit's stored record keeps the local text as `original`, sets
`corrected` equal to it, and carries a single feedback entry identifying a
validation error; in particular a reply missing the `feedback` field fails
validation. -/
theorem C7_validation_failure_degraded :
    (∀ (text m : Str) (outcomes : Nat → CallOutcome) (j : Json),
        get_proofread_data text outcomes = PyResult.ok j →
        model_validate_edit j = Except.error m →
        process_one text outcomes =
          { original := text, corrected := text,
            feedback := [validationErrorMsg m] })
    ∧ (∀ o c : Str, ∃ m : Str,
        model_validate_edit (Json.obj
          [ (("original").toList, Json.str o)
          , (("corrected").toList, Json.str c) ]) = Except.error m) := by
  constructor
  · intro text m outcomes j hj he
    exact process_one_validate_error text outcomes j m hj he
  · intro o c
    exact ⟨_, rfl⟩

/-- Witness for C7: a concrete environment replying without `feedback`
yields the degraded validation-error record. -/
theorem C7_validation_failure_degraded_witness :
    process_one (("abc").toList)
        (fun _ => CallOutcome.content (Except.ok (Json.obj
          [ (("original").toList, Json.str (("abc").toList))
          , (("corrected").toList, Json.str (("abcd").toList)) ]))) =
      { original := ("abc").toList, corrected := ("abc").toList,
        feedback := [validationErrorMsg (("feedback: Field required").toList)] } :=
  C7_validation_failure_degraded.1 (("abc").toList)
    (("feedback: Field required").toList) _ _ rfl rfl

/-- C3: the pipeline yields exactly one result per input unit, in input
order — position `k` of the output is the processed unit at position `k`
of the input, whether it succeeded or was degraded. -/
theorem C3_one_result_per_unit (units : List (Segment × (Nat → CallOutcome))) :
    (process_segments units).length = units.length
    ∧ ∀ (k : Nat) (u : Segment × (Nat → CallOutcome)), units[k]? = some u →
        (process_segments units)[k]? = some (process_one u.1.text u.2) := by
  rw [process_segments_eq]
  constructor
  · exact List.length_map units _
  · intro k u h
    rw [List.getElem?_map, h]
    rfl

/-- Environment used by the witness of C3. -/
def c3Env : Nat → CallOutcome := fun _ =>
  CallOutcome.content (Except.error (("bad").toList))

/-- Witness for C3 on a concrete one-unit input. -/
theorem C3_one_result_per_unit_witness :
    (process_segments [({ id := 0, text := ("hi").toList, is_long := false },
        c3Env)]).length = 1
    ∧ (process_segments [({ id := 0, text := ("hi").toList, is_long := false },
        c3Env)])[0]? = some (process_one (("hi").toList) c3Env) := by
  constructor
  · exact (C3_one_result_per_unit _).1
  · exact (C3_one_result_per_unit _).2 0
      ({ id := 0, text := ("hi").toList, is_long := false }, c3Env) rfl

/-- C5: the Segmenter emits one unit per paragraph with `id` its 0-based
position and text unchanged, flags it oversized exactly when the fixed
prompt overhead plus the paragraph's token count exceeds the budget, and
drops nothing — oversized units are queued like the rest. -/
theorem C5_segmenter (paragraphs : List Str) (enc : Str → Nat) (maxT : Nat) :
    (prepare_segments_for_api paragraphs enc maxT).length = paragraphs.length
    ∧ ∀ (k : Nat) (t : Str), paragraphs[k]? = some t →
        (prepare_segments_for_api paragraphs enc maxT)[k]? =
          some { id := k, text := t,
                 is_long := decide (enc t + prompt_overhead enc > maxT) } := by
  constructor
  · exact prepareGo_length enc maxT (prompt_overhead enc) paragraphs 0
  · intro k t h
    unfold prepare_segments_for_api
    rw [prepareGo_getElem?, h]
    simp

/-- Witness for C5: a short paragraph against a budget smaller than the
prompt overhead is still emitted, flagged oversized. -/
theorem C5_segmenter_witness :
    (prepare_segments_for_api [("aaaa").toList] List.length 300).length = 1
    ∧ (prepare_segments_for_api [("aaaa").toList] List.length 300)[0]? =
        some { id := 0, text := ("aaaa").toList,
               is_long := decide (List.length (("aaaa").toList) +
                 prompt_overhead List.length > 300) } := by
  constructor
  · exact (C5_segmenter [("aaaa").toList] List.length 300).1
  · exact (C5_segmenter [("aaaa").toList] List.length 300).2 0 _ rfl

/-- C8: the summary handed to the output document reports the total as the
number of results and the corrected count as the number of results whose
corrected text differs from the original; on the spec's two-paragraph
scenario the pipeline yields 2 records, record 0 differing and record 1
not, with a corrected count of 1. -/
theorem C8_summary_counts :
    (∀ results : List Edit,
        (create_output_document results).total = results.length
        ∧ (create_output_document results).corrected =
            (results.filter (fun e => decide (e.original ≠ e.corrected))).length)
    ∧ c8Results.length = 2
    ∧ (create_output_document c8Results).total = 2
    ∧ (create_output_document c8Results).corrected = 1
    ∧ (∃ e0, c8Results[0]? = some e0 ∧ e0.original ≠ e0.corrected)
    ∧ (∃ e1, c8Results[1]? = some e1 ∧ e1.original = e1.corrected) := by
  refine ⟨fun results => ⟨rfl, List.countP_eq_length_filter _ _⟩,
    by decide, by decide, by decide, ?_, ?_⟩
  · exact ⟨{ original := c8Text0, corrected := ("The first paragraph.").toList,
             feedback := [("Fixed spelling of first.").toList] },
           by decide, by decide⟩
  · exact ⟨{ original := c8Text1, corrected := c8Text1, feedback := [] },
           by decide, by decide⟩

/-- C9: every feedback text handed to the renderer is whitespace-trimmed,
and is some feedback entry of the result, trimmed, with a leading bullet
marker stripped. -/
theorem C9_feedback_cleaned (fb : List Str) (t : Str)
    (h : t ∈ handed_feedback fb) :
    t = pyStrip t ∧ ∃ e, e ∈ fb ∧ t = clean_item (pyStrip e) := by
  unfold handed_feedback feedback_items at h
  obtain ⟨item, hitem, hsome⟩ := List.mem_filterMap.mp h
  obtain ⟨e, he, hsome2⟩ := List.mem_filterMap.mp hitem
  by_cases hc : pyStrip e = []
  · simp [hc] at hsome2
  · simp [hc] at hsome2
    subst hsome2
    by_cases hc2 : clean_item (pyStrip e) = []
    · simp [hc2] at hsome
    · simp [hc2] at hsome
      refine ⟨?_, e, he, hsome.symm⟩
      rw [← hsome]
      exact (pyStrip_clean_item (pyStrip e) (pyStrip_idem e)).symm

/-- Witness for C9 on a concrete bulleted, padded feedback entry. -/
theorem C9_feedback_cleaned_witness :
    ("Fix spacing.").toList = pyStrip (("Fix spacing.").toList)
    ∧ ∃ e, e ∈ [("  - Fix spacing.  ").toList]
        ∧ ("Fix spacing.").toList = clean_item (pyStrip e) :=
  C9_feedback_cleaned [("  - Fix spacing.  ").toList] (("Fix spacing.").toList)
    (by decide)

/-- C10: the loader returns the whitespace-trimmed paragraphs with empty
and whitespace-only ones silently dropped, preserving relative order;
every returned paragraph is non-empty and equal to its own trim. -/
theorem C10_loader (raw : List Str) :
    load_paragraphs raw = (raw.map pyStrip).filter (fun s => decide (s ≠ []))
    ∧ ∀ t ∈ load_paragraphs raw, t ≠ [] ∧ pyStrip t = t := by
  refine ⟨load_paragraphs_eq_filter raw, ?_⟩
  intro t ht
  obtain ⟨e, he, hsome⟩ := List.mem_filterMap.mp ht
  by_cases hc : pyStrip e = []
  · simp [hc] at hsome
  · have ht_eq : t = pyStrip e := by simpa [hc] using hsome.symm
    subst ht_eq
    exact ⟨hc, pyStrip_idem e⟩

/-- Witness for C10 on a document with padded, whitespace-only and clean
paragraphs. -/
theorem C10_loader_witness :
    load_paragraphs [("  a  ").toList, ("   ").toList, ("b").toList] =
      ([("  a  ").toList, ("   ").toList, ("b").toList].map pyStrip).filter
        (fun s => decide (s ≠ []))
    ∧ (("a").toList ≠ [] ∧ pyStrip (("a").toList) = ("a").toList) := by
  constructor
  · exact (C10_loader [("  a  ").toList, ("   ").toList, ("b").toList]).1
  · exact (C10_loader [("  a  ").toList, ("   ").toList, ("b").toList]).2
      (("a").toList) (by decide)

end AIProofreader
